import Mathlib

/-!
# comm_scope: `Comm_NUMAMemcpy_GPUToWC`

A shallow embedding of `src/numa-memcpy/gpu_to_wc.cpp`.

The benchmark body talks to three outside parties: the CUDA runtime, libnuma
and the benchmark harness (`benchmark::State`).  Every call the body makes to
one of them is appended, in program order, to a trace of `Call`s.  What the
outside answers (the `cudaError_t` of each checked call, the millisecond
reading of the timer, the two process-wide flags `has_cuda` / `has_numa`, the
number of iterations the harness asks for) is an input, collected in `Env`.
-/

namespace CommScope

open List

/-! ## CUDA error codes -/

/-- The enum `cudaError_t`; only `cudaSuccess = 0` is distinguished by the code. -/
abbrev cudaError_t := Nat

/-- The value `cudaSuccess`. -/
def cudaSuccess : cudaError_t := 0

/-- The macro `PRINT_IF_ERROR` (from `scope/utils`, not part of the file) logs a
failed call and yields the error code it was given; logging is not traced. -/
def PRINT_IF_ERROR (e : cudaError_t) : cudaError_t := e

/-- The macro `NAME`. -/
def NAME : String := "Comm_NUMAMemcpy_GPUToWC"

/-! ## Machine integers -/

/-- The cast `static_cast<size_t>(x)` of a signed 64-bit value. -/
def static_cast_size_t (x : Int) : Nat := (x % 2 ^ 64).toNat

/-- The expression `1ULL << n` on `unsigned long long`.  C++ leaves the shift
undefined for `n ≥ 64`; the model lets it wrap to `0` there. -/
def shl_1ULL (n : Nat) : Nat := (1 * 2 ^ n) % 2 ^ 64

/-- Line 31: `bytes = 1ULL << static_cast<size_t>(state.range(0))`. -/
def bytes_of_range (range0 : Int) : Nat := shl_1ULL (static_cast_size_t range0)

/-- The cast `int64_t(x)`: the two's-complement reading of `x` modulo `2^64`. -/
def int64_t (x : Int) : Int := (x + 2 ^ 63) % 2 ^ 64 - 2 ^ 63

/-- The product `int64_t(iterations) * int64_t(bytes)` of line 85, kept in
64 signed bits. -/
def bytesProcessedValue (iterations : Nat) (bytes : Nat) : Int :=
  int64_t (int64_t (iterations : Int) * int64_t (bytes : Int))

/-! ## Calls and traces -/

/-- The two timing events of the body. -/
inductive Event where
  | start
  | stop
  deriving DecidableEq, Repr

/-- One call made by the benchmark body, with the arguments that matter. -/
inductive Call where
  | numa_bind_node (node : Int)
  | cuda_reset_device (dev : Int)
  | cudaHostAlloc (bytes : Nat)
  | cudaFreeHost
  | cudaSetDevice (dev : Int)
  | cudaMalloc (bytes : Nat)
  | cudaFree
  | cudaMemset (value : Nat) (bytes : Nat)
  | cudaEventCreate (e : Event)
  | cudaEventRecord (e : Event)
  | cudaMemcpyAsync (bytes : Nat)
  | cudaEventSynchronize (e : Event)
  | cudaEventElapsedTime
  | SkipWithError (msg : String)
  | SetIterationTime (seconds : ℚ)
  | SetBytesProcessed (v : Int)
  | SetCounter (key : String) (v : Int)
  deriving DecidableEq

/-- Calls of `cudaMemcpyAsync`. -/
def Call.isCopy : Call → Bool
  | Call.cudaMemcpyAsync _ => true
  | _ => false

/-- Calls of `cudaHostAlloc`. -/
def Call.isHostAlloc : Call → Bool
  | Call.cudaHostAlloc _ => true
  | _ => false

/-- Calls of `cudaMalloc`. -/
def Call.isDeviceAlloc : Call → Bool
  | Call.cudaMalloc _ => true
  | _ => false

/-- Calls of `state.SetIterationTime`. -/
def Call.isSetIterationTime : Call → Bool
  | Call.SetIterationTime _ => true
  | _ => false

/-! ## The harness state -/

/-- Modelled from the spec: the class `benchmark::State` of the external
harness is not part of the source file.  The record keeps what the body reads
(`range(0)`, `iterations()`) and what it writes.  Following the spec,
`iterations` is the number of completed iterations of the measurement loop.
Counters are stored as integers: every value the body stores (a power of two
up to `2^63`, an `int`) is exactly representable in the harness's `double`. -/
structure State where
  range0 : Int
  iterations : Nat
  error : Option String
  iteration_times : List ℚ
  bytes_processed : Option Int
  counters : List (String × Int)

/-- The state the harness hands to a run whose size argument is `range0`. -/
def State.fresh (range0 : Int) : State :=
  { range0 := range0, iterations := 0, error := none, iteration_times := [],
    bytes_processed := none, counters := [] }

/-- Lookup `state.counters[key]`. -/
def State.counter (s : State) (key : String) : Option Int :=
  s.counters.lookup key

/-- The running benchmark body: harness state plus the trace of calls so far. -/
structure Machine where
  state : State
  trace : List Call

/-- Record a call to the CUDA runtime or to libnuma. -/
def Machine.call (m : Machine) (c : Call) : Machine :=
  { m with trace := m.trace ++ [c] }

/-- The call `state.SkipWithError(msg)`. -/
def Machine.SkipWithError (m : Machine) (msg : String) : Machine :=
  { state := { m.state with error := some msg },
    trace := m.trace ++ [Call.SkipWithError msg] }

/-- The call `state.SetIterationTime(seconds)`. -/
def Machine.SetIterationTime (m : Machine) (seconds : ℚ) : Machine :=
  { state := { m.state with iteration_times := m.state.iteration_times ++ [seconds] },
    trace := m.trace ++ [Call.SetIterationTime seconds] }

/-- The call `state.SetBytesProcessed(v)`. -/
def Machine.SetBytesProcessed (m : Machine) (v : Int) : Machine :=
  { state := { m.state with bytes_processed := some v },
    trace := m.trace ++ [Call.SetBytesProcessed v] }

/-- The assignment `state.counters[key] = v`. -/
def Machine.SetCounter (m : Machine) (key : String) (v : Int) : Machine :=
  { state := { m.state with
      counters := (key, v) :: m.state.counters.filter (fun kv => kv.1 != key) },
    trace := m.trace ++ [Call.SetCounter key v] }

/-- The range-for loop of the harness steps to its next iteration. -/
def Machine.nextIteration (m : Machine) : Machine :=
  { m with state := { m.state with iterations := m.state.iterations + 1 } }

/-! ## The environment -/

/-- What the CUDA runtime answers in one iteration of the measurement loop. -/
structure IterOutcome where
  copy : cudaError_t
  elapsed : cudaError_t
  msecTotal : ℚ

/-- Everything the outside decides for one run.  `iters` has one entry per
iteration the harness is willing to run (its length is `max_iterations`). -/
structure Env where
  has_cuda : Bool
  has_numa : Bool
  reset : cudaError_t
  hostAlloc : cudaError_t
  setDevice : cudaError_t
  malloc : cudaError_t
  memset : cudaError_t
  iters : List IterOutcome

/-! ## The benchmark body -/

/-- Lines 67-84: the loop `for (auto _ : state)`.  A `break` leaves the loop
without stepping the harness to the next iteration. -/
def measure (bytes : Nat) : List IterOutcome → Machine → Machine
  | [], m => m
  | it :: rest, m =>
    let m := m.call (Call.cudaEventRecord Event.start)
    let cuda_err := it.copy
    let m := m.call (Call.cudaMemcpyAsync bytes)
    let m := m.call (Call.cudaEventRecord Event.stop)
    let m := m.call (Call.cudaEventSynchronize Event.stop)
    if PRINT_IF_ERROR cuda_err ≠ cudaSuccess then
      m.SkipWithError (NAME ++ " failed to perform memcpy")
    else
      let m := m.call Call.cudaEventElapsedTime
      if PRINT_IF_ERROR it.elapsed ≠ cudaSuccess then
        m.SkipWithError (NAME ++ " failed to get elapsed time")
      else
        let m := m.SetIterationTime (it.msecTotal / 1000)
        measure bytes rest m.nextIteration

/-- Lines 63-91: event creation, the measurement loop, reporting and unbind. -/
def timed (env : Env) (bytes : Nat) (numa_id cuda_id : Int) (m : Machine) : Machine :=
  let m := m.call (Call.cudaEventCreate Event.start)
  let m := m.call (Call.cudaEventCreate Event.stop)
  let m := measure bytes env.iters m
  let m := m.SetBytesProcessed (bytesProcessedValue m.state.iterations bytes)
  let m := m.SetCounter "bytes" bytes
  let m := m.SetCounter "cuda_id" cuda_id
  let m := m.SetCounter "numa_id" numa_id
  -- reset to run on any node
  m.call (Call.numa_bind_node (-1))

/-- Lines 57-91, the scope of `defer(cudaFree(src))` exclusive of the guard. -/
def withDeviceBuffer (env : Env) (bytes : Nat) (numa_id cuda_id : Int)
    (m : Machine) : Machine :=
  let m := m.call (Call.cudaMemset 0 bytes)
  if PRINT_IF_ERROR env.memset ≠ cudaSuccess then
    m.SkipWithError (NAME ++ " failed to perform cudaMemset")
  else
    timed env bytes numa_id cuda_id m

/-- Lines 46-91, the scope of `defer(cudaFreeHost(dst))` exclusive of the guard.
The macro `defer` (from `scope/utils`, not part of the file) is a scope guard:
its statement runs when the enclosing scope is left, on every path, after the
last statement of the scope and before guards registered earlier. -/
def withHostBuffer (env : Env) (bytes : Nat) (numa_id cuda_id : Int)
    (m : Machine) : Machine :=
  let m := m.call (Call.cudaSetDevice cuda_id)
  if PRINT_IF_ERROR env.setDevice ≠ cudaSuccess then
    m.SkipWithError (NAME ++ " failed to set CUDA device")
  else
    let m := m.call (Call.cudaMalloc bytes)
    if PRINT_IF_ERROR env.malloc ≠ cudaSuccess then
      m.SkipWithError (NAME ++ " failed to perform cudaMalloc")
    else
      -- defer(cudaFree(src));
      let m := withDeviceBuffer env bytes numa_id cuda_id m
      m.call Call.cudaFree

/-- The lambda `Comm_NUMAMemcpy_GPUToWC` (lines 19-92), run on a machine. -/
def run (env : Env) (numa_id cuda_id : Int) (m : Machine) : Machine :=
  if !env.has_cuda then
    m.SkipWithError (NAME ++ " no CUDA device found")
  else if !env.has_numa then
    m.SkipWithError (NAME ++ " NUMA not available")
  else
    let bytes := bytes_of_range m.state.range0
    let m := m.call (Call.numa_bind_node numa_id)
    let m := m.call (Call.cuda_reset_device cuda_id)
    if PRINT_IF_ERROR env.reset ≠ cudaSuccess then
      m.SkipWithError (NAME ++ " failed to reset CUDA device")
    else
      let m := m.call (Call.cudaHostAlloc bytes)
      if PRINT_IF_ERROR env.hostAlloc ≠ cudaSuccess then
        m.SkipWithError (NAME ++ " failed to perform pinned cudaHostAlloc")
      else
        -- defer(cudaFreeHost(dst));
        let m := withHostBuffer env bytes numa_id cuda_id m
        m.call Call.cudaFreeHost

/-- The lambda `Comm_NUMAMemcpy_GPUToWC` applied to a harness state: the final
state and the ordered trace of the calls it made. -/
def Comm_NUMAMemcpy_GPUToWC (env : Env) (state : State) (numa_id cuda_id : Int) :
    Machine :=
  run env numa_id cuda_id { state := state, trace := [] }

/-! ## Registration -/

/-- The function `std::to_string(int)`: decimal, with a leading `-` when negative. -/
def to_string (i : Int) : String := toString i

/-- One call of `benchmark::RegisterBenchmark`: the name and the two bound
arguments of the lambda. -/
structure Registration where
  name : String
  numa_id : Int
  cuda_id : Int
  deriving DecidableEq

/-- The function `registerer` (lines 94-101); the two id sequences are what
`unique_cuda_device_ids()` and `unique_numa_ids()` return.  The result is the
list of registrations in the order they are made. -/
def registerer (cuda_ids numa_ids : List Int) : List Registration :=
  cuda_ids.foldl
    (fun reg cuda_id =>
      numa_ids.foldl
        (fun reg numa_id =>
          let name := NAME ++ "/" ++ to_string numa_id ++ "/" ++ to_string cuda_id
          reg ++ [{ name := name, numa_id := numa_id, cuda_id := cuda_id }])
        reg)
    []

/-! ## Reading a run -/

/-- Whether both checked calls of an iteration report `cudaSuccess`. -/
def IterOutcome.ok (it : IterOutcome) : Prop :=
  it.copy = cudaSuccess ∧ it.elapsed = cudaSuccess

instance (it : IterOutcome) : Decidable it.ok := by
  unfold IterOutcome.ok; infer_instance

/-- The calls of one iteration that runs to its end. -/
def iterationCalls (bytes : Nat) (it : IterOutcome) : List Call :=
  [Call.cudaEventRecord Event.start, Call.cudaMemcpyAsync bytes,
   Call.cudaEventRecord Event.stop, Call.cudaEventSynchronize Event.stop,
   Call.cudaEventElapsedTime, Call.SetIterationTime (it.msecTotal / 1000)]

/-- The calls the measurement loop makes, as a function of the outcomes alone. -/
def loopTrace (bytes : Nat) : List IterOutcome → List Call
  | [] => []
  | it :: rest =>
    if it.copy ≠ cudaSuccess then
      [Call.cudaEventRecord Event.start, Call.cudaMemcpyAsync bytes,
       Call.cudaEventRecord Event.stop, Call.cudaEventSynchronize Event.stop,
       Call.SkipWithError (NAME ++ " failed to perform memcpy")]
    else if it.elapsed ≠ cudaSuccess then
      [Call.cudaEventRecord Event.start, Call.cudaMemcpyAsync bytes,
       Call.cudaEventRecord Event.stop, Call.cudaEventSynchronize Event.stop,
       Call.cudaEventElapsedTime,
       Call.SkipWithError (NAME ++ " failed to get elapsed time")]
    else iterationCalls bytes it ++ loopTrace bytes rest

/-- Calls that only the measurement loop makes. -/
def Call.inLoop : Call → Bool
  | Call.cudaEventRecord _ => true
  | Call.cudaMemcpyAsync _ => true
  | Call.cudaEventSynchronize _ => true
  | Call.cudaEventElapsedTime => true
  | Call.SkipWithError _ => true
  | Call.SetIterationTime _ => true
  | _ => false

/-- The calls of a setup in which every step succeeds, in program order. -/
def setupCalls (bytes : Nat) (numa_id cuda_id : Int) : List Call :=
  [Call.numa_bind_node numa_id, Call.cuda_reset_device cuda_id,
   Call.cudaHostAlloc bytes, Call.cudaSetDevice cuda_id, Call.cudaMalloc bytes,
   Call.cudaMemset 0 bytes]

/-- All five checked setup calls report `cudaSuccess`. -/
def Env.setupOk (env : Env) : Prop :=
  env.reset = cudaSuccess ∧ env.hostAlloc = cudaSuccess ∧ env.setDevice = cudaSuccess ∧
    env.malloc = cudaSuccess ∧ env.memset = cudaSuccess

instance (env : Env) : Decidable env.setupOk := by
  unfold Env.setupOk; infer_instance

/-! ## Setup steps -/

/-- The five checked setup steps of the body, in program order. -/
inductive SetupStep where
  | reset
  | hostAlloc
  | setDevice
  | malloc
  | memset
  deriving DecidableEq, Repr

/-- Position of a setup step in the program text. -/
def SetupStep.index : SetupStep → Nat
  | SetupStep.reset => 0
  | SetupStep.hostAlloc => 1
  | SetupStep.setDevice => 2
  | SetupStep.malloc => 3
  | SetupStep.memset => 4

/-- The error code the environment gives to a setup step. -/
def SetupStep.result (env : Env) : SetupStep → cudaError_t
  | SetupStep.reset => env.reset
  | SetupStep.hostAlloc => env.hostAlloc
  | SetupStep.setDevice => env.setDevice
  | SetupStep.malloc => env.malloc
  | SetupStep.memset => env.memset

/-- Whether a call is the call of the given setup step. -/
def SetupStep.isCall : SetupStep → Call → Bool
  | SetupStep.reset, Call.cuda_reset_device _ => true
  | SetupStep.hostAlloc, Call.cudaHostAlloc _ => true
  | SetupStep.setDevice, Call.cudaSetDevice _ => true
  | SetupStep.malloc, Call.cudaMalloc _ => true
  | SetupStep.memset, Call.cudaMemset _ _ => true
  | _, _ => false

/-- The skip reason the claim expects for a failed setup step. -/
def SetupStep.message : SetupStep → String
  | SetupStep.reset => "Comm_NUMAMemcpy_GPUToWC failed to reset CUDA device"
  | SetupStep.hostAlloc => "Comm_NUMAMemcpy_GPUToWC failed to perform pinned cudaHostAlloc"
  | SetupStep.setDevice => "Comm_NUMAMemcpy_GPUToWC failed to set CUDA device"
  | SetupStep.malloc => "Comm_NUMAMemcpy_GPUToWC failed to perform cudaMalloc"
  | SetupStep.memset => "Comm_NUMAMemcpy_GPUToWC failed to perform cudaMemset"

/-- The step is the first setup step to fail: it fails and every step before it
in program order succeeds. -/
def Env.firstToFail (env : Env) (step : SetupStep) : Prop :=
  step.result env ≠ cudaSuccess ∧
    ∀ earlier : SetupStep, earlier.index < step.index → earlier.result env = cudaSuccess

/-! ## The measurement loop -/

theorem measure_trace (bytes : Nat) (its : List IterOutcome) (m : Machine) :
    (measure bytes its m).trace = m.trace ++ loopTrace bytes its := by
  induction its generalizing m with
  | nil => simp [measure, loopTrace]
  | cons it rest ih =>
    by_cases hc : it.copy = cudaSuccess
    · by_cases he : it.elapsed = cudaSuccess
      · simp [measure, loopTrace, PRINT_IF_ERROR, hc, he, ih, iterationCalls,
          Machine.call, Machine.SetIterationTime, Machine.nextIteration]
      · simp [measure, loopTrace, PRINT_IF_ERROR, hc, he, Machine.call,
          Machine.SkipWithError]
    · simp [measure, loopTrace, PRINT_IF_ERROR, hc, Machine.call, Machine.SkipWithError]

theorem loopTrace_inLoop (bytes : Nat) (its : List IterOutcome) :
    ∀ c ∈ loopTrace bytes its, c.inLoop = true := by
  induction its with
  | nil => simp [loopTrace]
  | cons it rest ih =>
    intro c hc
    unfold loopTrace at hc
    split_ifs at hc
    · simp at hc
      rcases hc with h | h | h | h | h <;> subst h <;> rfl
    · simp at hc
      rcases hc with h | h | h | h | h | h <;> subst h <;> rfl
    · rw [List.mem_append] at hc
      rcases hc with h | h
      · simp [iterationCalls] at h
        rcases h with h | h | h | h | h | h <;> subst h <;> rfl
      · exact ih c h

theorem measure_ok (bytes : Nat) (its : List IterOutcome) (m : Machine)
    (h : ∀ it ∈ its, it.ok) :
    measure bytes its m =
      { state := { m.state with
          iterations := m.state.iterations + its.length
          iteration_times :=
            m.state.iteration_times ++ its.map (fun it => it.msecTotal / 1000) }
        trace := m.trace ++ (its.map (iterationCalls bytes)).flatten } := by
  induction its generalizing m with
  | nil => simp [measure]
  | cons it rest ih =>
    have h1 : it.ok := h it (List.mem_cons_self _ _)
    have h2 : ∀ it ∈ rest, it.ok := fun x hx => h x (List.mem_cons_of_mem _ hx)
    obtain ⟨hc, he⟩ := h1
    simp [measure, PRINT_IF_ERROR, hc, he, ih _ h2, iterationCalls, Machine.call,
      Machine.SetIterationTime, Machine.nextIteration]
    omega

theorem measure_append (bytes : Nat) (pre rest : List IterOutcome) (m : Machine)
    (h : ∀ it ∈ pre, it.ok) :
    measure bytes (pre ++ rest) m = measure bytes rest (measure bytes pre m) := by
  induction pre generalizing m with
  | nil => simp [measure]
  | cons it pre ih =>
    have h1 : it.ok := h it (List.mem_cons_self _ _)
    have h2 : ∀ it ∈ pre, it.ok := fun x hx => h x (List.mem_cons_of_mem _ hx)
    obtain ⟨hc, he⟩ := h1
    simp [measure, PRINT_IF_ERROR, hc, he, ih _ h2]

/-- The state part of the loop depends on the outcomes only through `iterations`
never decreasing and the other reported fields staying untouched. -/
theorem measure_state (bytes : Nat) (its : List IterOutcome) (m : Machine) :
    (measure bytes its m).state.range0 = m.state.range0 ∧
    (measure bytes its m).state.bytes_processed = m.state.bytes_processed ∧
    (measure bytes its m).state.counters = m.state.counters := by
  induction its generalizing m with
  | nil => simp [measure]
  | cons it rest ih =>
    by_cases hc : it.copy = cudaSuccess
    · by_cases he : it.elapsed = cudaSuccess
      · simp [measure, PRINT_IF_ERROR, hc, he, ih, Machine.call,
          Machine.SetIterationTime, Machine.nextIteration]
      · simp [measure, PRINT_IF_ERROR, hc, he, Machine.call, Machine.SkipWithError]
    · simp [measure, PRINT_IF_ERROR, hc, Machine.call, Machine.SkipWithError]

theorem bytes_of_range_eq (s : Int) (h0 : 0 ≤ s) (h1 : s ≤ 63) :
    bytes_of_range s = 2 ^ s.toNat := by
  have hs : s % 2 ^ 64 = s := Int.emod_eq_of_lt h0 (by omega)
  have hlt : s.toNat < 64 := by omega
  have hpow : 2 ^ s.toNat < 2 ^ 64 := Nat.pow_lt_pow_right (by norm_num) hlt
  simp only [bytes_of_range, shl_1ULL, static_cast_size_t, hs, one_mul]
  exact Nat.mod_eq_of_lt hpow

/-- The whole run when the hardware is present and setup succeeds. -/
theorem run_setupOk (env : Env) (s numa_id cuda_id : Int)
    (hc : env.has_cuda = true) (hn : env.has_numa = true) (hs : env.setupOk) :
    Comm_NUMAMemcpy_GPUToWC env (State.fresh s) numa_id cuda_id =
      (((timed env (bytes_of_range s) numa_id cuda_id
          { state := State.fresh s
            trace := setupCalls (bytes_of_range s) numa_id cuda_id }).call
        Call.cudaFree).call Call.cudaFreeHost) := by
  obtain ⟨h1, h2, h3, h4, h5⟩ := hs
  simp [Comm_NUMAMemcpy_GPUToWC, run, withHostBuffer, withDeviceBuffer, hc, hn, h1, h2, h3,
    h4, h5, PRINT_IF_ERROR, Machine.call, setupCalls, State.fresh]

theorem timed_trace (env : Env) (bytes : Nat) (numa_id cuda_id : Int) (m : Machine) :
    (timed env bytes numa_id cuda_id m).trace =
      m.trace ++ [Call.cudaEventCreate Event.start, Call.cudaEventCreate Event.stop] ++
        loopTrace bytes env.iters ++
        [Call.SetBytesProcessed
            (bytesProcessedValue (measure bytes env.iters
              ((m.call (Call.cudaEventCreate Event.start)).call
                (Call.cudaEventCreate Event.stop))).state.iterations bytes),
          Call.SetCounter "bytes" bytes, Call.SetCounter "cuda_id" cuda_id,
          Call.SetCounter "numa_id" numa_id, Call.numa_bind_node (-1)] := by
  simp [timed, measure_trace, Machine.call, Machine.SetBytesProcessed, Machine.SetCounter]

/-! ## Arithmetic of the byte count -/

theorem int64_t_of_small (x : Int) (h0 : 0 ≤ x) (h1 : x < 2 ^ 63) : int64_t x = x := by
  unfold int64_t
  have : (x + 2 ^ 63) % 2 ^ 64 = x + 2 ^ 63 := Int.emod_eq_of_lt (by omega) (by omega)
  omega

theorem bytesProcessedValue_eq (n bytes : Nat) (h : bytes * n < 2 ^ 63) :
    bytesProcessedValue n bytes = (bytes : Int) * (n : Int) := by
  have z : int64_t 0 = 0 := by decide
  rcases Nat.eq_zero_or_pos n with hn0 | hn0
  · subst hn0
    simp [bytesProcessedValue, z]
  rcases Nat.eq_zero_or_pos bytes with hb0 | hb0
  · subst hb0
    simp [bytesProcessedValue, z]
  have hn : n < 2 ^ 63 := lt_of_le_of_lt (Nat.le_mul_of_pos_left n hb0) h
  have hb : bytes < 2 ^ 63 := lt_of_le_of_lt (Nat.le_mul_of_pos_right bytes hn0) h
  have hp : ((bytes : Int) * (n : Int)) < 2 ^ 63 := by exact_mod_cast h
  unfold bytesProcessedValue
  rw [int64_t_of_small n (by positivity) (by exact_mod_cast hn),
    int64_t_of_small bytes (by positivity) (by exact_mod_cast hb), mul_comm,
    int64_t_of_small _ (by positivity) hp]

theorem countP_flatten_iterationCalls (p : Call → Bool) (bytes k : Nat)
    (pre : List IterOutcome) (h : ∀ it, (iterationCalls bytes it).countP p = k) :
    ((pre.map (iterationCalls bytes)).flatten).countP p = pre.length * k := by
  induction pre with
  | nil => simp
  | cons it pre ih =>
    simp only [List.map_cons, List.flatten_cons, List.countP_append, ih, h, List.length_cons]
    ring

theorem measure_copy_fails (bytes : Nat) (pre post : List IterOutcome) (it : IterOutcome)
    (m : Machine) (hpre : ∀ p ∈ pre, p.ok) (hit : it.copy ≠ cudaSuccess) :
    measure bytes (pre ++ it :: post) m =
      { state := { m.state with
          iterations := m.state.iterations + pre.length
          error := some (NAME ++ " failed to perform memcpy")
          iteration_times :=
            m.state.iteration_times ++ pre.map (fun it => it.msecTotal / 1000) }
        trace := m.trace ++ (pre.map (iterationCalls bytes)).flatten ++
          [Call.cudaEventRecord Event.start, Call.cudaMemcpyAsync bytes,
           Call.cudaEventRecord Event.stop, Call.cudaEventSynchronize Event.stop,
           Call.SkipWithError (NAME ++ " failed to perform memcpy")] } := by
  rw [measure_append bytes pre _ m hpre, measure_ok bytes pre m hpre]
  simp [measure, PRINT_IF_ERROR, hit, Machine.call, Machine.SkipWithError]

/-! ## Traces of whole runs -/

theorem loopTrace_count_zero (bytes : Nat) (its : List IterOutcome) (c : Call)
    (h : c.inLoop = false) : (loopTrace bytes its).count c = 0 := by
  rw [List.count_eq_zero]
  intro hmem
  rw [loopTrace_inLoop bytes its c hmem] at h
  exact absurd h (by decide)

theorem loopTrace_any_false (bytes : Nat) (its : List IterOutcome) (p : Call → Bool)
    (h : ∀ c, c.inLoop = true → p c = false) : (loopTrace bytes its).any p = false := by
  rw [List.any_eq_false]
  intro c hc
  simp [h c (loopTrace_inLoop bytes its c hc)]

theorem pair_sublist_append {a b : Call} {l₁ l₂ : List Call} (ha : a ∈ l₁) (hb : b ∈ l₂) :
    [a, b] <+ l₁ ++ l₂ :=
  (List.singleton_sublist.mpr ha).append (List.singleton_sublist.mpr hb)

/-- The trace of a run in which the hardware is present and setup succeeds. -/
theorem trace_setupOk (env : Env) (s numa_id cuda_id : Int)
    (hc : env.has_cuda = true) (hn : env.has_numa = true) (hs : env.setupOk) :
    (Comm_NUMAMemcpy_GPUToWC env (State.fresh s) numa_id cuda_id).trace =
      setupCalls (bytes_of_range s) numa_id cuda_id ++
        [Call.cudaEventCreate Event.start, Call.cudaEventCreate Event.stop] ++
        loopTrace (bytes_of_range s) env.iters ++
        [Call.SetBytesProcessed
            (bytesProcessedValue
              (Comm_NUMAMemcpy_GPUToWC env (State.fresh s) numa_id cuda_id).state.iterations
              (bytes_of_range s)),
          Call.SetCounter "bytes" (bytes_of_range s), Call.SetCounter "cuda_id" cuda_id,
          Call.SetCounter "numa_id" numa_id, Call.numa_bind_node (-1), Call.cudaFree,
          Call.cudaFreeHost] := by
  rw [run_setupOk env s numa_id cuda_id hc hn hs]
  simp [Machine.call, timed_trace]
  simp [timed, Machine.call, Machine.SetBytesProcessed, Machine.SetCounter]

/-- With the hardware present, the unbind `numa_bind_node(-1)` is executed
exactly when every setup step succeeds (the bind itself is told apart from the
unbind by `numa_id ≠ -1`): each of the five early returns leaves the node bound. -/
theorem unbind_iff_setupOk (env : Env) (s numa_id cuda_id : Int)
    (hc : env.has_cuda = true) (hn : env.has_numa = true) (hid : numa_id ≠ -1) :
    Call.numa_bind_node (-1) ∈
        (Comm_NUMAMemcpy_GPUToWC env (State.fresh s) numa_id cuda_id).trace ↔
      env.setupOk := by
  constructor
  · intro hmem
    by_contra hs
    have hcases : env.reset ≠ 0 ∨ (env.reset = 0 ∧ env.hostAlloc ≠ 0) ∨
        (env.reset = 0 ∧ env.hostAlloc = 0 ∧ env.setDevice ≠ 0) ∨
        (env.reset = 0 ∧ env.hostAlloc = 0 ∧ env.setDevice = 0 ∧ env.malloc ≠ 0) ∨
        (env.reset = 0 ∧ env.hostAlloc = 0 ∧ env.setDevice = 0 ∧ env.malloc = 0 ∧
          env.memset ≠ 0) := by
      simp only [Env.setupOk, cudaSuccess] at hs
      tauto
    rcases hcases with h1 | ⟨h1, h2⟩ | ⟨h1, h2, h3⟩ | ⟨h1, h2, h3, h4⟩ | ⟨h1, h2, h3, h4, h5⟩
    all_goals
      simp [Comm_NUMAMemcpy_GPUToWC, run, withHostBuffer, withDeviceBuffer, hc, hn, *,
        PRINT_IF_ERROR, cudaSuccess, Machine.call, Machine.SkipWithError, State.fresh]
        at hmem
      exact hid hmem.symm
  · intro hs
    rw [trace_setupOk env s numa_id cuda_id hc hn hs]
    simp

/-! ## Registration lemmas -/

theorem registerer_inner (cuda_id : Int) (numa_ids : List Int) (reg : List Registration) :
    numa_ids.foldl
        (fun reg numa_id =>
          let name := NAME ++ "/" ++ to_string numa_id ++ "/" ++ to_string cuda_id
          reg ++ [{ name := name, numa_id := numa_id, cuda_id := cuda_id }])
        reg =
      reg ++ numa_ids.map (fun numa_id =>
        { name := NAME ++ "/" ++ to_string numa_id ++ "/" ++ to_string cuda_id,
          numa_id := numa_id, cuda_id := cuda_id }) := by
  induction numa_ids generalizing reg with
  | nil => simp
  | cons n ns ih => simp [ih]

theorem foldl_append_eq {α β : Type} (f : α → List β) (l : List α) (acc : List β) :
    l.foldl (fun reg a => reg ++ f a) acc = acc ++ (l.map f).flatten := by
  induction l generalizing acc with
  | nil => simp
  | cons a l ih => simp [ih]

theorem registerer_eq (cuda_ids numa_ids : List Int) :
    registerer cuda_ids numa_ids =
      (cuda_ids.map (fun cuda_id => numa_ids.map (fun numa_id =>
        ({ name := NAME ++ "/" ++ to_string numa_id ++ "/" ++ to_string cuda_id,
           numa_id := numa_id, cuda_id := cuda_id } : Registration)))).flatten := by
  unfold registerer
  simp only [registerer_inner]
  rw [foldl_append_eq]
  simp

theorem registerer_cons (g : Int) (gs numa_ids : List Int) :
    registerer (g :: gs) numa_ids =
      numa_ids.map (fun numa_id =>
        ({ name := NAME ++ "/" ++ to_string numa_id ++ "/" ++ to_string g,
           numa_id := numa_id, cuda_id := g } : Registration)) ++ registerer gs numa_ids := by
  simp [registerer_eq]

theorem countP_registrations_same (g n : Int) (numa_ids : List Int) :
    (numa_ids.map (fun numa_id =>
        ({ name := NAME ++ "/" ++ to_string numa_id ++ "/" ++ to_string g,
           numa_id := numa_id, cuda_id := g } : Registration))).countP
      (fun r => decide (r.numa_id = n ∧ r.cuda_id = g)) = numa_ids.count n := by
  induction numa_ids with
  | nil => simp
  | cons a l ih =>
    simp only [List.map_cons, List.countP_cons, ih, List.count_cons]
    by_cases h : a = n <;> simp [h]

theorem countP_registrations_other (g g' n : Int) (numa_ids : List Int) (h : g' ≠ g) :
    (numa_ids.map (fun numa_id =>
        ({ name := NAME ++ "/" ++ to_string numa_id ++ "/" ++ to_string g',
           numa_id := numa_id, cuda_id := g' } : Registration))).countP
      (fun r => decide (r.numa_id = n ∧ r.cuda_id = g)) = 0 := by
  induction numa_ids with
  | nil => simp
  | cons a l ih => simp [List.countP_cons, ih, h]

theorem registerer_pairs (G N : List Int) :
    (registerer G N).map (fun r => (r.cuda_id, r.numa_id)) = G ×ˢ N := by
  induction G with
  | nil => simp [registerer]
  | cons a l ih =>
    rw [registerer_cons, List.map_append, ih]
    simp [List.product_cons, Function.comp_def]

theorem registerer_length (G N : List Int) :
    (registerer G N).length = G.length * N.length := by
  induction G with
  | nil => simp [registerer]
  | cons a l ih =>
    rw [registerer_cons, List.length_append, ih]
    simp
    ring

theorem registerer_countP (G N : List Int) (g n : Int) :
    (registerer G N).countP (fun r => decide (r.numa_id = n ∧ r.cuda_id = g))
      = G.count g * N.count n := by
  induction G with
  | nil => simp [registerer]
  | cons a l ih =>
    rw [registerer_cons, List.countP_append, ih, List.count_cons]
    by_cases h : a = g
    · subst h
      rw [countP_registrations_same]
      simp
      ring
    · rw [countP_registrations_other g a n N h]
      simp [h]

/-! ## The claims -/

/-- C1 (the code breaks it): with the hardware present, NUMA node 1, GPU 0,
size exponent 20 and a failing device reset, the body binds node 1, attempts the
reset, skips and returns; the unbind `numa_bind_node(-1)` is never executed. -/
theorem C1_reset_failure_leaks_binding :
    (Comm_NUMAMemcpy_GPUToWC
        { has_cuda := true, has_numa := true, reset := 1, hostAlloc := 0,
          setDevice := 0, malloc := 0, memset := 0, iters := [⟨0, 0, 3⟩] }
        (State.fresh 20) 1 0).trace =
      [Call.numa_bind_node 1, Call.cuda_reset_device 0,
        Call.SkipWithError "Comm_NUMAMemcpy_GPUToWC failed to reset CUDA device"] ∧
    Call.numa_bind_node (-1) ∉
      (Comm_NUMAMemcpy_GPUToWC
        { has_cuda := true, has_numa := true, reset := 1, hostAlloc := 0,
          setDevice := 0, malloc := 0, memset := 0, iters := [⟨0, 0, 3⟩] }
        (State.fresh 20) 1 0).trace := by
  decide

/-- C2: when the hardware is present and a setup step is the first one to fail,
the case is skipped with that step's message, no later setup step is called,
no copy is issued, no iteration time is set and no iteration is counted.  In
particular a failed device reset is followed by neither `cudaHostAlloc` nor
`cudaMalloc`. -/
theorem C2_fail_fast_setup (env : Env) (s numa_id cuda_id : Int) (step : SetupStep)
    (hc : env.has_cuda = true) (hn : env.has_numa = true) (hf : env.firstToFail step) :
    (Comm_NUMAMemcpy_GPUToWC env (State.fresh s) numa_id cuda_id).state.error
        = some step.message ∧
    Call.SkipWithError step.message ∈
      (Comm_NUMAMemcpy_GPUToWC env (State.fresh s) numa_id cuda_id).trace ∧
    (∀ later : SetupStep, step.index < later.index →
      ∀ c ∈ (Comm_NUMAMemcpy_GPUToWC env (State.fresh s) numa_id cuda_id).trace,
        later.isCall c = false) ∧
    (∀ c ∈ (Comm_NUMAMemcpy_GPUToWC env (State.fresh s) numa_id cuda_id).trace,
      c.isCopy = false ∧ c.isSetIterationTime = false) ∧
    (Comm_NUMAMemcpy_GPUToWC env (State.fresh s) numa_id cuda_id).state.iteration_times
        = [] ∧
    (Comm_NUMAMemcpy_GPUToWC env (State.fresh s) numa_id cuda_id).state.iterations = 0 ∧
    (step = SetupStep.reset →
      ∀ c ∈ (Comm_NUMAMemcpy_GPUToWC env (State.fresh s) numa_id cuda_id).trace,
        c.isHostAlloc = false ∧ c.isDeviceAlloc = false) := by
  obtain ⟨hfail, hearlier⟩ := hf
  cases step
  · -- device reset
    have h1 : env.reset ≠ 0 := hfail
    simp [Comm_NUMAMemcpy_GPUToWC, run, hc, hn, h1, PRINT_IF_ERROR, cudaSuccess,
      Machine.call, Machine.SkipWithError, State.fresh, SetupStep.message, NAME,
      Call.isCopy, Call.isSetIterationTime, Call.isHostAlloc, Call.isDeviceAlloc]
    intro later hl
    cases later <;> simp [SetupStep.isCall, SetupStep.index] at hl ⊢
  · -- host allocation
    have h1 : env.reset = 0 := hearlier SetupStep.reset (by decide)
    have h2 : env.hostAlloc ≠ 0 := hfail
    simp [Comm_NUMAMemcpy_GPUToWC, run, hc, hn, h1, h2, PRINT_IF_ERROR, cudaSuccess,
      Machine.call, Machine.SkipWithError, State.fresh, SetupStep.message, NAME,
      Call.isCopy, Call.isSetIterationTime]
    intro later hl
    cases later <;> simp [SetupStep.isCall] <;> simp [SetupStep.index] at hl
  · -- set device
    have h1 : env.reset = 0 := hearlier SetupStep.reset (by decide)
    have h2 : env.hostAlloc = 0 := hearlier SetupStep.hostAlloc (by decide)
    have h3 : env.setDevice ≠ 0 := hfail
    simp [Comm_NUMAMemcpy_GPUToWC, run, withHostBuffer, hc, hn, h1, h2, h3, PRINT_IF_ERROR,
      cudaSuccess, Machine.call, Machine.SkipWithError, State.fresh, SetupStep.message, NAME,
      Call.isCopy, Call.isSetIterationTime]
    intro later hl
    cases later <;> simp [SetupStep.isCall] <;> simp [SetupStep.index] at hl
  · -- device allocation
    have h1 : env.reset = 0 := hearlier SetupStep.reset (by decide)
    have h2 : env.hostAlloc = 0 := hearlier SetupStep.hostAlloc (by decide)
    have h3 : env.setDevice = 0 := hearlier SetupStep.setDevice (by decide)
    have h4 : env.malloc ≠ 0 := hfail
    simp [Comm_NUMAMemcpy_GPUToWC, run, withHostBuffer, hc, hn, h1, h2, h3, h4,
      PRINT_IF_ERROR, cudaSuccess, Machine.call, Machine.SkipWithError, State.fresh,
      SetupStep.message, NAME, Call.isCopy, Call.isSetIterationTime]
    intro later hl
    cases later <;> simp [SetupStep.isCall] <;> simp [SetupStep.index] at hl
  · -- zero fill
    have h1 : env.reset = 0 := hearlier SetupStep.reset (by decide)
    have h2 : env.hostAlloc = 0 := hearlier SetupStep.hostAlloc (by decide)
    have h3 : env.setDevice = 0 := hearlier SetupStep.setDevice (by decide)
    have h4 : env.malloc = 0 := hearlier SetupStep.malloc (by decide)
    have h5 : env.memset ≠ 0 := hfail
    simp [Comm_NUMAMemcpy_GPUToWC, run, withHostBuffer, withDeviceBuffer, hc, hn, h1, h2,
      h3, h4, h5, PRINT_IF_ERROR, cudaSuccess, Machine.call, Machine.SkipWithError,
      State.fresh, SetupStep.message, NAME, Call.isCopy, Call.isSetIterationTime]
    intro later hl
    cases later <;> simp [SetupStep.isCall] <;> simp [SetupStep.index] at hl

/-- C2 at work: the device allocation is the first step to fail (error code 2);
the case is skipped with the `cudaMalloc` message. -/
theorem C2_fail_fast_setup_witness :
    (Comm_NUMAMemcpy_GPUToWC
        { has_cuda := true, has_numa := true, reset := 0, hostAlloc := 0,
          setDevice := 0, malloc := 2, memset := 0, iters := [⟨0, 0, 3⟩] }
        (State.fresh 20) 1 0).state.error
      = some "Comm_NUMAMemcpy_GPUToWC failed to perform cudaMalloc" :=
  (C2_fail_fast_setup
    { has_cuda := true, has_numa := true, reset := 0, hostAlloc := 0,
      setDevice := 0, malloc := 2, memset := 0, iters := [⟨0, 0, 3⟩] }
    20 1 0 SetupStep.malloc rfl rfl
    ⟨by decide, fun earlier h => by cases earlier <;> first | rfl | exact absurd h (by decide)⟩).1

/-- C3: when the hardware is present, setup succeeds, the iterations in `pre`
run to their end and the copy of the next iteration reports an error, the case
is marked failed with the memcpy message, the elapsed time is read and an
iteration time is set only for the iterations of `pre`, exactly one more copy
is issued (the failing one), and the bytes-processed value is the one of
`pre.length` completed iterations: the failed iteration is credited nothing. -/
theorem C3_copy_failure_stops_loop (env : Env) (s numa_id cuda_id : Int)
    (pre post : List IterOutcome) (it : IterOutcome)
    (hc : env.has_cuda = true) (hn : env.has_numa = true) (hs : env.setupOk)
    (hiters : env.iters = pre ++ it :: post) (hpre : ∀ p ∈ pre, p.ok)
    (hit : it.copy ≠ cudaSuccess) :
    (Comm_NUMAMemcpy_GPUToWC env (State.fresh s) numa_id cuda_id).state.error
        = some "Comm_NUMAMemcpy_GPUToWC failed to perform memcpy" ∧
    (Comm_NUMAMemcpy_GPUToWC env (State.fresh s) numa_id cuda_id).trace.count
        Call.cudaEventElapsedTime = pre.length ∧
    (Comm_NUMAMemcpy_GPUToWC env (State.fresh s) numa_id cuda_id).trace.countP
        Call.isSetIterationTime = pre.length ∧
    (Comm_NUMAMemcpy_GPUToWC env (State.fresh s) numa_id cuda_id).state.iteration_times
        = pre.map (fun p => p.msecTotal / 1000) ∧
    (Comm_NUMAMemcpy_GPUToWC env (State.fresh s) numa_id cuda_id).trace.countP
        Call.isCopy = pre.length + 1 ∧
    (Comm_NUMAMemcpy_GPUToWC env (State.fresh s) numa_id cuda_id).state.iterations
        = pre.length ∧
    (Comm_NUMAMemcpy_GPUToWC env (State.fresh s) numa_id cuda_id).state.bytes_processed
        = some (bytesProcessedValue pre.length (bytes_of_range s)) ∧
    (bytes_of_range s * pre.length < 2 ^ 63 →
      (Comm_NUMAMemcpy_GPUToWC env (State.fresh s) numa_id cuda_id).state.bytes_processed
        = some ((bytes_of_range s : Int) * (pre.length : Int))) := by
  have hE : ∀ x, (iterationCalls (bytes_of_range s) x).countP
      (fun c => c == Call.cudaEventElapsedTime) = 1 := by
    intro x; simp [iterationCalls, List.countP_cons]
  have hT : ∀ x, (iterationCalls (bytes_of_range s) x).countP Call.isSetIterationTime = 1 := by
    intro x; simp [iterationCalls, List.countP_cons, Call.isSetIterationTime]
  have hC : ∀ x, (iterationCalls (bytes_of_range s) x).countP Call.isCopy = 1 := by
    intro x; simp [iterationCalls, List.countP_cons, Call.isCopy]
  have hval : bytes_of_range s * pre.length < 2 ^ 63 →
      bytesProcessedValue pre.length (bytes_of_range s)
        = (bytes_of_range s : Int) * (pre.length : Int) :=
    bytesProcessedValue_eq _ _
  rw [run_setupOk env s numa_id cuda_id hc hn hs]
  simp only [timed, hiters, measure_copy_fails _ pre post it _ hpre hit]
  simp [Machine.call, Machine.SetBytesProcessed, Machine.SetCounter, State.fresh, NAME,
    setupCalls, List.count, List.countP_cons, countP_flatten_iterationCalls _ _ 1 pre hE,
    countP_flatten_iterationCalls _ _ 1 pre hT, countP_flatten_iterationCalls _ _ 1 pre hC,
    Call.isSetIterationTime, Call.isCopy]
  exact hval

/-- C3 at work: two iterations complete and the copy of the third one fails
(error code 4) at size exponent 20: two iterations are credited. -/
theorem C3_copy_failure_stops_loop_witness :
    (Comm_NUMAMemcpy_GPUToWC
        { has_cuda := true, has_numa := true, reset := 0, hostAlloc := 0,
          setDevice := 0, malloc := 0, memset := 0,
          iters := [⟨0, 0, 3⟩, ⟨0, 0, 5⟩] ++ ⟨4, 0, 7⟩ :: [⟨0, 0, 9⟩] }
        (State.fresh 20) 1 0).state.iterations = [(⟨0, 0, 3⟩ : IterOutcome), ⟨0, 0, 5⟩].length :=
  (C3_copy_failure_stops_loop
    { has_cuda := true, has_numa := true, reset := 0, hostAlloc := 0,
      setDevice := 0, malloc := 0, memset := 0,
      iters := [⟨0, 0, 3⟩, ⟨0, 0, 5⟩] ++ ⟨4, 0, 7⟩ :: [⟨0, 0, 9⟩] }
    20 1 0 [⟨0, 0, 3⟩, ⟨0, 0, 5⟩] [⟨0, 0, 9⟩] ⟨4, 0, 7⟩ rfl rfl (by decide) rfl
    (by decide) (by decide)).2.2.2.2.2.1

/-- C4: when the hardware is present, every setup step succeeds and every
iteration succeeds, a run with size exponent `0 ≤ s ≤ 63` ends without an error
and reports the counters `bytes = 2^s`, `cuda_id` and `numa_id` as given. -/
theorem C4_metadata_counters (env : Env) (s numa_id cuda_id : Int)
    (hc : env.has_cuda = true) (hn : env.has_numa = true) (hs : env.setupOk)
    (hiters : ∀ it ∈ env.iters, it.ok) (h0 : 0 ≤ s) (h63 : s ≤ 63) :
    (Comm_NUMAMemcpy_GPUToWC env (State.fresh s) numa_id cuda_id).state.error = none ∧
    (Comm_NUMAMemcpy_GPUToWC env (State.fresh s) numa_id cuda_id).state.counter "bytes"
      = some (2 ^ s.toNat) ∧
    (Comm_NUMAMemcpy_GPUToWC env (State.fresh s) numa_id cuda_id).state.counter "cuda_id"
      = some cuda_id ∧
    (Comm_NUMAMemcpy_GPUToWC env (State.fresh s) numa_id cuda_id).state.counter "numa_id"
      = some numa_id := by
  rw [run_setupOk env s numa_id cuda_id hc hn hs]
  simp only [timed, measure_ok _ _ _ hiters, bytes_of_range_eq s h0 h63]
  simp [Machine.call, Machine.SetBytesProcessed, Machine.SetCounter, State.fresh,
    State.counter, List.lookup]

/-- C4 at work, the scenario of the spec: GPU 0, NUMA node 1, size exponent 20
give `bytes = 1048576`, `cuda_id = 0`, `numa_id = 1`. -/
theorem C4_metadata_counters_witness :
    (Comm_NUMAMemcpy_GPUToWC
        { has_cuda := true, has_numa := true, reset := 0, hostAlloc := 0,
          setDevice := 0, malloc := 0, memset := 0, iters := [⟨0, 0, 3⟩, ⟨0, 0, 5⟩] }
        (State.fresh 20) 1 0).state.error = none ∧
    (Comm_NUMAMemcpy_GPUToWC
        { has_cuda := true, has_numa := true, reset := 0, hostAlloc := 0,
          setDevice := 0, malloc := 0, memset := 0, iters := [⟨0, 0, 3⟩, ⟨0, 0, 5⟩] }
        (State.fresh 20) 1 0).state.counter "bytes" = some 1048576 ∧
    (Comm_NUMAMemcpy_GPUToWC
        { has_cuda := true, has_numa := true, reset := 0, hostAlloc := 0,
          setDevice := 0, malloc := 0, memset := 0, iters := [⟨0, 0, 3⟩, ⟨0, 0, 5⟩] }
        (State.fresh 20) 1 0).state.counter "cuda_id" = some 0 ∧
    (Comm_NUMAMemcpy_GPUToWC
        { has_cuda := true, has_numa := true, reset := 0, hostAlloc := 0,
          setDevice := 0, malloc := 0, memset := 0, iters := [⟨0, 0, 3⟩, ⟨0, 0, 5⟩] }
        (State.fresh 20) 1 0).state.counter "numa_id" = some 1 :=
  C4_metadata_counters
    { has_cuda := true, has_numa := true, reset := 0, hostAlloc := 0,
      setDevice := 0, malloc := 0, memset := 0, iters := [⟨0, 0, 3⟩, ⟨0, 0, 5⟩] }
    20 1 0 rfl rfl (by decide) (by decide) (by decide) (by decide)

/-- C5: without a CUDA device the case is skipped with the reason
`Comm_NUMAMemcpy_GPUToWC no CUDA device found`; with a device but without NUMA
it is skipped with `Comm_NUMAMemcpy_GPUToWC NUMA not available`.  In both
situations the skip is the only call of the run (no bind, reset, allocation or
copy) and neither counters, bytes processed nor iteration times are set. -/
theorem C5_global_preconditions (env : Env) (s numa_id cuda_id : Int) :
    (env.has_cuda = false →
      (Comm_NUMAMemcpy_GPUToWC env (State.fresh s) numa_id cuda_id).trace
        = [Call.SkipWithError "Comm_NUMAMemcpy_GPUToWC no CUDA device found"] ∧
      (Comm_NUMAMemcpy_GPUToWC env (State.fresh s) numa_id cuda_id).state
        = { State.fresh s with
            error := some "Comm_NUMAMemcpy_GPUToWC no CUDA device found" }) ∧
    (env.has_cuda = true → env.has_numa = false →
      (Comm_NUMAMemcpy_GPUToWC env (State.fresh s) numa_id cuda_id).trace
        = [Call.SkipWithError "Comm_NUMAMemcpy_GPUToWC NUMA not available"] ∧
      (Comm_NUMAMemcpy_GPUToWC env (State.fresh s) numa_id cuda_id).state
        = { State.fresh s with
            error := some "Comm_NUMAMemcpy_GPUToWC NUMA not available" }) ∧
    ((env.has_cuda = false ∨ env.has_numa = false) →
      (Comm_NUMAMemcpy_GPUToWC env (State.fresh s) numa_id cuda_id).state.counters = [] ∧
      (Comm_NUMAMemcpy_GPUToWC env (State.fresh s) numa_id cuda_id).state.bytes_processed
        = none ∧
      (Comm_NUMAMemcpy_GPUToWC env (State.fresh s) numa_id cuda_id).state.iteration_times
        = [] ∧
      (Comm_NUMAMemcpy_GPUToWC env (State.fresh s) numa_id cuda_id).trace.length = 1) := by
  refine ⟨?_, ?_, ?_⟩
  · intro hc
    simp [Comm_NUMAMemcpy_GPUToWC, run, hc, Machine.SkipWithError, NAME, State.fresh]
  · intro hc hn
    simp [Comm_NUMAMemcpy_GPUToWC, run, hc, hn, Machine.SkipWithError, NAME, State.fresh]
  · intro h
    by_cases hc : env.has_cuda = true
    · have hn : env.has_numa = false := by
        rcases h with h | h
        · rw [hc] at h; exact absurd h (by decide)
        · exact h
      simp [Comm_NUMAMemcpy_GPUToWC, run, hc, hn, Machine.SkipWithError, State.fresh]
    · simp [Comm_NUMAMemcpy_GPUToWC, run, hc, Machine.SkipWithError, State.fresh]

/-- C5 at work: a host with a GPU but without NUMA, every setup call willing to
succeed: the only call of the run is the skip. -/
theorem C5_global_preconditions_witness :
    (Comm_NUMAMemcpy_GPUToWC
        { has_cuda := true, has_numa := false, reset := 0, hostAlloc := 0,
          setDevice := 0, malloc := 0, memset := 0, iters := [⟨0, 0, 3⟩] }
        (State.fresh 20) 1 0).trace
      = [Call.SkipWithError "Comm_NUMAMemcpy_GPUToWC NUMA not available"] :=
  ((C5_global_preconditions
    { has_cuda := true, has_numa := false, reset := 0, hostAlloc := 0,
      setDevice := 0, malloc := 0, memset := 0, iters := [⟨0, 0, 3⟩] }
    20 1 0).2.1 rfl rfl).1

/-- C6: on every path, whatever the environment answers, the host buffer is
released exactly once, after its allocation, if `cudaHostAlloc` was called and
succeeded, and `cudaFreeHost` is not called otherwise; likewise for the device
buffer with `cudaMalloc` and `cudaFree`.  Neither allocation is attempted more
than once. -/
theorem C6_buffers_released (env : Env) (s numa_id cuda_id : Int) :
    (Comm_NUMAMemcpy_GPUToWC env (State.fresh s) numa_id cuda_id).trace.countP
        Call.isHostAlloc ≤ 1 ∧
    (Comm_NUMAMemcpy_GPUToWC env (State.fresh s) numa_id cuda_id).trace.countP
        Call.isDeviceAlloc ≤ 1 ∧
    (if (Comm_NUMAMemcpy_GPUToWC env (State.fresh s) numa_id cuda_id).trace.any
          Call.isHostAlloc = true ∧ env.hostAlloc = cudaSuccess then
      (Comm_NUMAMemcpy_GPUToWC env (State.fresh s) numa_id cuda_id).trace.count
          Call.cudaFreeHost = 1 ∧
      [Call.cudaHostAlloc (bytes_of_range s), Call.cudaFreeHost] <+
        (Comm_NUMAMemcpy_GPUToWC env (State.fresh s) numa_id cuda_id).trace
    else
      Call.cudaFreeHost ∉
        (Comm_NUMAMemcpy_GPUToWC env (State.fresh s) numa_id cuda_id).trace) ∧
    (if (Comm_NUMAMemcpy_GPUToWC env (State.fresh s) numa_id cuda_id).trace.any
          Call.isDeviceAlloc = true ∧ env.malloc = cudaSuccess then
      (Comm_NUMAMemcpy_GPUToWC env (State.fresh s) numa_id cuda_id).trace.count
          Call.cudaFree = 1 ∧
      [Call.cudaMalloc (bytes_of_range s), Call.cudaFree] <+
        (Comm_NUMAMemcpy_GPUToWC env (State.fresh s) numa_id cuda_id).trace
    else
      Call.cudaFree ∉
        (Comm_NUMAMemcpy_GPUToWC env (State.fresh s) numa_id cuda_id).trace) := by
  by_cases hc : env.has_cuda = true
  swap
  · simp [Comm_NUMAMemcpy_GPUToWC, run, hc, Machine.SkipWithError, Call.isHostAlloc,
      Call.isDeviceAlloc]
  by_cases hn : env.has_numa = true
  swap
  · simp [Comm_NUMAMemcpy_GPUToWC, run, hc, hn, Machine.SkipWithError, Call.isHostAlloc,
      Call.isDeviceAlloc]
  by_cases h1 : env.reset = 0
  swap
  · simp [Comm_NUMAMemcpy_GPUToWC, run, hc, hn, h1, PRINT_IF_ERROR, cudaSuccess,
      Machine.call, Machine.SkipWithError, Call.isHostAlloc, Call.isDeviceAlloc,
      List.countP_cons]
  by_cases h2 : env.hostAlloc = 0
  swap
  · simp [Comm_NUMAMemcpy_GPUToWC, run, hc, hn, h1, h2, PRINT_IF_ERROR, cudaSuccess,
      Machine.call, Machine.SkipWithError, Call.isHostAlloc, Call.isDeviceAlloc,
      List.countP_cons]
  by_cases h3 : env.setDevice = 0
  swap
  · simp [Comm_NUMAMemcpy_GPUToWC, run, withHostBuffer, hc, hn, h1, h2, h3, PRINT_IF_ERROR,
      cudaSuccess, Machine.call, Machine.SkipWithError, Call.isHostAlloc,
      Call.isDeviceAlloc, List.countP_cons, List.count_cons]
    (repeat (first
      | exact List.nil_sublist _
      | apply List.Sublist.cons₂
      | apply List.Sublist.cons))
  by_cases h4 : env.malloc = 0
  swap
  · simp [Comm_NUMAMemcpy_GPUToWC, run, withHostBuffer, hc, hn, h1, h2, h3, h4,
      PRINT_IF_ERROR, cudaSuccess, Machine.call, Machine.SkipWithError, Call.isHostAlloc,
      Call.isDeviceAlloc, List.countP_cons, List.count_cons]
    (repeat (first
      | exact List.nil_sublist _
      | apply List.Sublist.cons₂
      | apply List.Sublist.cons))
  by_cases h5 : env.memset = 0
  swap
  · simp [Comm_NUMAMemcpy_GPUToWC, run, withHostBuffer, withDeviceBuffer, hc, hn, h1, h2,
      h3, h4, h5, PRINT_IF_ERROR, cudaSuccess, Machine.call, Machine.SkipWithError,
      Call.isHostAlloc, Call.isDeviceAlloc, List.countP_cons, List.count_cons]
    constructor <;> (repeat (first
      | exact List.nil_sublist _
      | apply List.Sublist.cons₂
      | apply List.Sublist.cons))
  have hs : env.setupOk := ⟨h1, h2, h3, h4, h5⟩
  have hH : (loopTrace (bytes_of_range s) env.iters).any Call.isHostAlloc = false :=
    loopTrace_any_false _ _ _ (by intro c; cases c <;> simp [Call.inLoop, Call.isHostAlloc])
  have hD : (loopTrace (bytes_of_range s) env.iters).any Call.isDeviceAlloc = false :=
    loopTrace_any_false _ _ _ (by intro c; cases c <;> simp [Call.inLoop, Call.isDeviceAlloc])
  have hH' : (loopTrace (bytes_of_range s) env.iters).countP Call.isHostAlloc = 0 := by
    rw [List.countP_eq_zero]; simpa using hH
  have hD' : (loopTrace (bytes_of_range s) env.iters).countP Call.isDeviceAlloc = 0 := by
    rw [List.countP_eq_zero]; simpa using hD
  have hFH := loopTrace_count_zero (bytes_of_range s) env.iters Call.cudaFreeHost rfl
  have hF := loopTrace_count_zero (bytes_of_range s) env.iters Call.cudaFree rfl
  rw [trace_setupOk env s numa_id cuda_id hc hn hs]
  refine ⟨?_, ?_, ?_, ?_⟩
  · simp [setupCalls, List.countP_cons, Call.isHostAlloc, hH']
  · simp [setupCalls, List.countP_cons, Call.isDeviceAlloc, hD']
  · rw [if_pos ⟨by simp [setupCalls, Call.isHostAlloc], h2⟩]
    refine ⟨by simp [setupCalls, List.count_cons, hFH], ?_⟩
    exact pair_sublist_append (by simp [setupCalls]) (by simp)
  · rw [if_pos ⟨by simp [setupCalls, Call.isDeviceAlloc], h4⟩]
    refine ⟨by simp [setupCalls, List.count_cons, hF], ?_⟩
    exact pair_sublist_append (by simp [setupCalls]) (by simp)

/-- C7 as stated fails: in a run with the hardware present, NUMA node 1, GPU 0,
size exponent 20, every setup step succeeding and one successful iteration,
the host buffer is allocated, the unbind is executed, and `cudaFreeHost` does
not precede the unbind `numa_bind_node(-1)`: the unbind comes first. -/
theorem C7_release_does_not_precede_unbind :
    Call.cudaHostAlloc 1048576 ∈
      (Comm_NUMAMemcpy_GPUToWC
        { has_cuda := true, has_numa := true, reset := 0, hostAlloc := 0,
          setDevice := 0, malloc := 0, memset := 0, iters := [⟨0, 0, 3⟩] }
        (State.fresh 20) 1 0).trace ∧
    ¬ [Call.cudaFreeHost, Call.numa_bind_node (-1)] <+
      (Comm_NUMAMemcpy_GPUToWC
        { has_cuda := true, has_numa := true, reset := 0, hostAlloc := 0,
          setDevice := 0, malloc := 0, memset := 0, iters := [⟨0, 0, 3⟩] }
        (State.fresh 20) 1 0).trace ∧
    [Call.numa_bind_node (-1), Call.cudaFree, Call.cudaFreeHost] <+
      (Comm_NUMAMemcpy_GPUToWC
        { has_cuda := true, has_numa := true, reset := 0, hostAlloc := 0,
          setDevice := 0, malloc := 0, memset := 0, iters := [⟨0, 0, 3⟩] }
        (State.fresh 20) 1 0).trace := by
  decide

/-- C7 as amended: in every run in which the host buffer is allocated (hardware
present, device reset and `cudaHostAlloc` succeed), the run starts with the bind
to `numa_id`, the device reset and `cudaHostAlloc`, and `cudaFreeHost` is its
last call and its only release of the host buffer.  When the rest of setup
succeeds as well, the run ends with the unbind `numa_bind_node(-1)` followed by
`cudaFree` and `cudaFreeHost`: both buffers are torn down after the unbind. -/
theorem C7_binding_and_host_buffer (env : Env) (s numa_id cuda_id : Int)
    (hc : env.has_cuda = true) (hn : env.has_numa = true)
    (hreset : env.reset = cudaSuccess) (hhost : env.hostAlloc = cudaSuccess) :
    (∃ mid : List Call,
      (Comm_NUMAMemcpy_GPUToWC env (State.fresh s) numa_id cuda_id).trace =
        [Call.numa_bind_node numa_id, Call.cuda_reset_device cuda_id,
          Call.cudaHostAlloc (bytes_of_range s)] ++ mid ++ [Call.cudaFreeHost] ∧
      Call.cudaFreeHost ∉ mid ∧ mid.any Call.isHostAlloc = false) ∧
    (env.setDevice = cudaSuccess → env.malloc = cudaSuccess → env.memset = cudaSuccess →
      ∃ mid : List Call,
        (Comm_NUMAMemcpy_GPUToWC env (State.fresh s) numa_id cuda_id).trace =
          [Call.numa_bind_node numa_id, Call.cuda_reset_device cuda_id,
            Call.cudaHostAlloc (bytes_of_range s)] ++ mid ++
          [Call.numa_bind_node (-1), Call.cudaFree, Call.cudaFreeHost] ∧
        (∀ c ∈ mid, c ≠ Call.cudaFree ∧ c ≠ Call.cudaFreeHost ∧
          ∀ node, c ≠ Call.numa_bind_node node)) := by
  have key : ∀ (h3 : env.setDevice = cudaSuccess) (h4 : env.malloc = cudaSuccess)
      (h5 : env.memset = cudaSuccess),
      ∃ mid : List Call,
        (Comm_NUMAMemcpy_GPUToWC env (State.fresh s) numa_id cuda_id).trace =
          [Call.numa_bind_node numa_id, Call.cuda_reset_device cuda_id,
            Call.cudaHostAlloc (bytes_of_range s)] ++ mid ++
          [Call.numa_bind_node (-1), Call.cudaFree, Call.cudaFreeHost] ∧
        (∀ c ∈ mid, c ≠ Call.cudaFree ∧ c ≠ Call.cudaFreeHost ∧
          (∀ node, c ≠ Call.numa_bind_node node) ∧ c.isHostAlloc = false) := by
    intro h3 h4 h5
    refine ⟨[Call.cudaSetDevice cuda_id, Call.cudaMalloc (bytes_of_range s),
        Call.cudaMemset 0 (bytes_of_range s), Call.cudaEventCreate Event.start,
        Call.cudaEventCreate Event.stop] ++ loopTrace (bytes_of_range s) env.iters ++
        [Call.SetBytesProcessed
            (bytesProcessedValue
              (Comm_NUMAMemcpy_GPUToWC env (State.fresh s) numa_id cuda_id).state.iterations
              (bytes_of_range s)),
          Call.SetCounter "bytes" (bytes_of_range s), Call.SetCounter "cuda_id" cuda_id,
          Call.SetCounter "numa_id" numa_id], ?_, ?_⟩
    · rw [trace_setupOk env s numa_id cuda_id hc hn ⟨hreset, hhost, h3, h4, h5⟩]
      simp [setupCalls]
    · intro c hmem
      simp only [List.mem_append] at hmem
      rcases hmem with (hmem | hmem) | hmem
      · simp at hmem
        rcases hmem with h | h | h | h | h <;> subst h <;> simp [Call.isHostAlloc]
      · have := loopTrace_inLoop _ _ c hmem
        cases c <;> simp [Call.inLoop, Call.isHostAlloc] at this ⊢
      · simp at hmem
        rcases hmem with h | h | h | h <;> subst h <;> simp [Call.isHostAlloc]
  refine ⟨?_, fun h3 h4 h5 => ?_⟩
  · have h1 : env.reset = 0 := hreset
    have h2 : env.hostAlloc = 0 := hhost
    by_cases h3 : env.setDevice = 0
    swap
    · refine ⟨[Call.cudaSetDevice cuda_id,
        Call.SkipWithError (NAME ++ " failed to set CUDA device")], ?_, ?_, ?_⟩ <;>
      simp [Comm_NUMAMemcpy_GPUToWC, run, withHostBuffer, hc, hn, h1, h2, h3,
        PRINT_IF_ERROR, cudaSuccess, Machine.call, Machine.SkipWithError, State.fresh,
        Call.isHostAlloc]
    by_cases h4 : env.malloc = 0
    swap
    · refine ⟨[Call.cudaSetDevice cuda_id, Call.cudaMalloc (bytes_of_range s),
        Call.SkipWithError (NAME ++ " failed to perform cudaMalloc")], ?_, ?_, ?_⟩ <;>
      simp [Comm_NUMAMemcpy_GPUToWC, run, withHostBuffer, hc, hn, h1, h2, h3, h4,
        PRINT_IF_ERROR, cudaSuccess, Machine.call, Machine.SkipWithError, State.fresh,
        Call.isHostAlloc]
    by_cases h5 : env.memset = 0
    swap
    · refine ⟨[Call.cudaSetDevice cuda_id, Call.cudaMalloc (bytes_of_range s),
        Call.cudaMemset 0 (bytes_of_range s),
        Call.SkipWithError (NAME ++ " failed to perform cudaMemset"), Call.cudaFree],
        ?_, ?_, ?_⟩ <;>
      simp [Comm_NUMAMemcpy_GPUToWC, run, withHostBuffer, withDeviceBuffer, hc, hn, h1, h2,
        h3, h4, h5, PRINT_IF_ERROR, cudaSuccess, Machine.call, Machine.SkipWithError,
        State.fresh, Call.isHostAlloc]
    obtain ⟨mid, hmid, hprop⟩ := key h3 h4 h5
    refine ⟨mid ++ [Call.numa_bind_node (-1), Call.cudaFree], ?_, ?_, ?_⟩
    · rw [hmid]; simp
    · intro hmem
      simp only [List.mem_append] at hmem
      rcases hmem with hmem | hmem
      · exact (hprop _ hmem).2.1 rfl
      · simp at hmem
    · rw [List.any_eq_false]
      intro c hmem
      simp only [List.mem_append] at hmem
      rcases hmem with hmem | hmem
      · simp [(hprop _ hmem).2.2.2]
      · simp at hmem
        rcases hmem with h | h <;> subst h <;> simp [Call.isHostAlloc]
  · obtain ⟨mid, hmid, hprop⟩ := key h3 h4 h5
    exact ⟨mid, hmid, fun c hmem =>
      ⟨(hprop c hmem).1, (hprop c hmem).2.1, (hprop c hmem).2.2.1⟩⟩

/-- C7 (amended) at work: NUMA node 1, GPU 0, size exponent 20, all setup steps
succeed and the single iteration fails at the copy; the trace still ends with
unbind, `cudaFree`, `cudaFreeHost`. -/
theorem C7_binding_and_host_buffer_witness :
    ∃ mid : List Call,
      (Comm_NUMAMemcpy_GPUToWC
        { has_cuda := true, has_numa := true, reset := 0, hostAlloc := 0,
          setDevice := 0, malloc := 0, memset := 0, iters := [⟨5, 0, 3⟩] }
        (State.fresh 20) 1 0).trace =
        [Call.numa_bind_node 1, Call.cuda_reset_device 0,
          Call.cudaHostAlloc (bytes_of_range 20)] ++ mid ++
        [Call.numa_bind_node (-1), Call.cudaFree, Call.cudaFreeHost] ∧
      (∀ c ∈ mid, c ≠ Call.cudaFree ∧ c ≠ Call.cudaFreeHost ∧
        ∀ node, c ≠ Call.numa_bind_node node) :=
  (C7_binding_and_host_buffer
    { has_cuda := true, has_numa := true, reset := 0, hostAlloc := 0,
      setDevice := 0, malloc := 0, memset := 0, iters := [⟨5, 0, 3⟩] }
    20 1 0 rfl rfl rfl rfl).2 rfl rfl rfl

/-- C8 as stated fails: with size exponent 63, setup succeeding and one
completed iteration, the value handed to `SetBytesProcessed` is `-2^63`, not
`2^63 * 1`: the cast `int64_t(bytes)` of `2^63` is negative. -/
theorem C8_bytes_processed_wraps_at_63 :
    (Comm_NUMAMemcpy_GPUToWC
        { has_cuda := true, has_numa := true, reset := 0, hostAlloc := 0,
          setDevice := 0, malloc := 0, memset := 0, iters := [⟨0, 0, 3⟩] }
        (State.fresh 63) 1 0).state.iterations = 1 ∧
    (Comm_NUMAMemcpy_GPUToWC
        { has_cuda := true, has_numa := true, reset := 0, hostAlloc := 0,
          setDevice := 0, malloc := 0, memset := 0, iters := [⟨0, 0, 3⟩] }
        (State.fresh 63) 1 0).state.bytes_processed = some (-(2 ^ 63)) ∧
    (Comm_NUMAMemcpy_GPUToWC
        { has_cuda := true, has_numa := true, reset := 0, hostAlloc := 0,
          setDevice := 0, malloc := 0, memset := 0, iters := [⟨0, 0, 3⟩] }
        (State.fresh 63) 1 0).state.bytes_processed ≠ some (2 ^ 63 * 1) := by
  decide

/-- C8 as amended: when the hardware is present and setup succeeds, for every
size exponent `0 ≤ s ≤ 63` and whatever the iterations do, the value handed to
`SetBytesProcessed` is the 64-bit signed product of the casts of the completed
iteration count `n` and of `2^s`; it equals `2^s * n` whenever `2^s * n < 2^63`. -/
theorem C8_bytes_processed (env : Env) (s numa_id cuda_id : Int)
    (hc : env.has_cuda = true) (hn : env.has_numa = true) (hs : env.setupOk)
    (h0 : 0 ≤ s) (h63 : s ≤ 63) :
    (Comm_NUMAMemcpy_GPUToWC env (State.fresh s) numa_id cuda_id).state.bytes_processed
      = some (bytesProcessedValue
          (Comm_NUMAMemcpy_GPUToWC env (State.fresh s) numa_id cuda_id).state.iterations
          (2 ^ s.toNat)) ∧
    Call.SetBytesProcessed (bytesProcessedValue
          (Comm_NUMAMemcpy_GPUToWC env (State.fresh s) numa_id cuda_id).state.iterations
          (2 ^ s.toNat)) ∈
      (Comm_NUMAMemcpy_GPUToWC env (State.fresh s) numa_id cuda_id).trace ∧
    (2 ^ s.toNat *
        (Comm_NUMAMemcpy_GPUToWC env (State.fresh s) numa_id cuda_id).state.iterations
        < 2 ^ 63 →
      (Comm_NUMAMemcpy_GPUToWC env (State.fresh s) numa_id cuda_id).state.bytes_processed
        = some (2 ^ s.toNat *
          ((Comm_NUMAMemcpy_GPUToWC env (State.fresh s) numa_id
            cuda_id).state.iterations : Int))) := by
  have hb : (Comm_NUMAMemcpy_GPUToWC env (State.fresh s) numa_id cuda_id).state.bytes_processed
      = some (bytesProcessedValue
          (Comm_NUMAMemcpy_GPUToWC env (State.fresh s) numa_id cuda_id).state.iterations
          (2 ^ s.toNat)) := by
    rw [run_setupOk env s numa_id cuda_id hc hn hs, bytes_of_range_eq s h0 h63]
    simp [timed, Machine.call, Machine.SetBytesProcessed, Machine.SetCounter]
  refine ⟨hb, ?_, ?_⟩
  · rw [trace_setupOk env s numa_id cuda_id hc hn hs, bytes_of_range_eq s h0 h63]
    simp
  · intro hlt
    rw [hb, bytesProcessedValue_eq _ _ hlt]
    simp

/-- C8 (amended) at work: size exponent 20 and two completed iterations give
`2^20 * 2 = 2097152` bytes processed. -/
theorem C8_bytes_processed_witness :
    (Comm_NUMAMemcpy_GPUToWC
        { has_cuda := true, has_numa := true, reset := 0, hostAlloc := 0,
          setDevice := 0, malloc := 0, memset := 0, iters := [⟨0, 0, 3⟩, ⟨0, 0, 5⟩] }
        (State.fresh 20) 1 0).state.bytes_processed = some 2097152 :=
  (C8_bytes_processed
    { has_cuda := true, has_numa := true, reset := 0, hostAlloc := 0,
      setDevice := 0, malloc := 0, memset := 0, iters := [⟨0, 0, 3⟩, ⟨0, 0, 5⟩] }
    20 1 0 rfl rfl (by decide) (by decide) (by decide)).2.2 (by decide)

/-- C9: for all id sequences `G` (GPUs) and `N` (NUMA nodes) the registered
cases, read as (GPU, NUMA) pairs in registration order, are the product of `G`
and `N`; there are `|G| * |N|` of them, none when either sequence is
empty; the pair `(g, n)` is registered once per occurrence of `g` in `G` and of
`n` in `N`, hence exactly once when the ids are distinct; and every case is
named `Comm_NUMAMemcpy_GPUToWC/<numa_id>/<cuda_id>` after its own arguments. -/
theorem C9_case_matrix (G N : List Int) :
    (registerer G N).map (fun r => (r.cuda_id, r.numa_id)) = G ×ˢ N ∧
    (registerer G N).length = G.length * N.length ∧
    (∀ g n : Int,
      (registerer G N).countP (fun r => decide (r.numa_id = n ∧ r.cuda_id = g))
        = G.count g * N.count n) ∧
    (∀ g n : Int, G.Nodup → N.Nodup → g ∈ G → n ∈ N →
      (registerer G N).countP (fun r => decide (r.numa_id = n ∧ r.cuda_id = g)) = 1) ∧
    (∀ r ∈ registerer G N,
      r.name = "Comm_NUMAMemcpy_GPUToWC/" ++ to_string r.numa_id ++ "/" ++
        to_string r.cuda_id) ∧
    (G = [] ∨ N = [] → registerer G N = []) ∧
    registerer [0] [1] = [⟨"Comm_NUMAMemcpy_GPUToWC/1/0", 1, 0⟩] ∧
    (registerer [0, 1] [2, 3]).map (fun r => r.name) =
      ["Comm_NUMAMemcpy_GPUToWC/2/0", "Comm_NUMAMemcpy_GPUToWC/3/0",
       "Comm_NUMAMemcpy_GPUToWC/2/1", "Comm_NUMAMemcpy_GPUToWC/3/1"] := by
  refine ⟨registerer_pairs G N, registerer_length G N, registerer_countP G N, ?_, ?_, ?_,
    by decide, by decide⟩
  · intro g n hG hN hg hn
    rw [registerer_countP, List.count_eq_one_of_mem hG hg, List.count_eq_one_of_mem hN hn]
  · intro r hr
    rw [registerer_eq] at hr
    simp only [List.mem_flatten, List.mem_map] at hr
    obtain ⟨l, ⟨g, _, rfl⟩, hr⟩ := hr
    simp only [List.mem_map] at hr
    obtain ⟨n, _, rfl⟩ := hr
    simp [NAME]
  · rintro (h | h)
    · subst h; rfl
    · subst h; simp [registerer_eq]

/-- C9 at work: two GPUs and no NUMA node register nothing, and with distinct
ids the case of GPU 1 and NUMA node 2 is registered exactly once. -/
theorem C9_case_matrix_witness :
    registerer [0, 1] [] = [] ∧
    (registerer [0, 1] [2, 3]).countP (fun r => decide (r.numa_id = 2 ∧ r.cuda_id = 1)) = 1 :=
  ⟨(C9_case_matrix [0, 1] []).2.2.2.2.2.1 (Or.inr rfl),
   (C9_case_matrix [0, 1] [2, 3]).2.2.2.1 1 2 (by decide) (by decide) (by decide) (by decide)⟩

/-- C10 as stated fails: in a run with the hardware present, NUMA node 1, GPU 0,
size exponent 20, every setup step succeeding and one successful iteration,
neither the device allocation nor the zero-fill precedes the host allocation;
`cudaHostAlloc` comes before `cudaMalloc` and `cudaMemset`. -/
theorem C10_host_alloc_before_device_alloc :
    ¬ [Call.cudaMalloc 1048576, Call.cudaHostAlloc 1048576] <+
      (Comm_NUMAMemcpy_GPUToWC
        { has_cuda := true, has_numa := true, reset := 0, hostAlloc := 0,
          setDevice := 0, malloc := 0, memset := 0, iters := [⟨0, 0, 3⟩] }
        (State.fresh 20) 1 0).trace ∧
    ¬ [Call.cudaMemset 0 1048576, Call.cudaHostAlloc 1048576] <+
      (Comm_NUMAMemcpy_GPUToWC
        { has_cuda := true, has_numa := true, reset := 0, hostAlloc := 0,
          setDevice := 0, malloc := 0, memset := 0, iters := [⟨0, 0, 3⟩] }
        (State.fresh 20) 1 0).trace ∧
    [Call.cudaHostAlloc 1048576, Call.cudaMalloc 1048576, Call.cudaMemset 0 1048576] <+
      (Comm_NUMAMemcpy_GPUToWC
        { has_cuda := true, has_numa := true, reset := 0, hostAlloc := 0,
          setDevice := 0, malloc := 0, memset := 0, iters := [⟨0, 0, 3⟩] }
        (State.fresh 20) 1 0).trace := by
  decide

/-- C10 as amended: in every run in which the hardware is present and all
setup steps succeed, the trace starts with the NUMA bind, the device reset, the
write-combined host allocation, `cudaSetDevice`, the device allocation and the
zero-fill, in this order, followed by the creation of the two events; no copy
is among them, and when the harness runs at least one iteration the next two
calls are the start marker and the first copy. -/
theorem C10_setup_order (env : Env) (s numa_id cuda_id : Int)
    (hc : env.has_cuda = true) (hn : env.has_numa = true) (hs : env.setupOk) :
    ∃ rest : List Call,
      (Comm_NUMAMemcpy_GPUToWC env (State.fresh s) numa_id cuda_id).trace =
        [Call.numa_bind_node numa_id, Call.cuda_reset_device cuda_id,
          Call.cudaHostAlloc (bytes_of_range s), Call.cudaSetDevice cuda_id,
          Call.cudaMalloc (bytes_of_range s), Call.cudaMemset 0 (bytes_of_range s),
          Call.cudaEventCreate Event.start, Call.cudaEventCreate Event.stop] ++ rest ∧
      (∀ c ∈ rest, c.isHostAlloc = false ∧ c.isDeviceAlloc = false ∧
        ∀ v b, c ≠ Call.cudaMemset v b) ∧
      (env.iters ≠ [] → ∃ rest', rest =
        Call.cudaEventRecord Event.start :: Call.cudaMemcpyAsync (bytes_of_range s) ::
          rest') := by
  refine ⟨loopTrace (bytes_of_range s) env.iters ++
        [Call.SetBytesProcessed
            (bytesProcessedValue
              (Comm_NUMAMemcpy_GPUToWC env (State.fresh s) numa_id cuda_id).state.iterations
              (bytes_of_range s)),
          Call.SetCounter "bytes" (bytes_of_range s), Call.SetCounter "cuda_id" cuda_id,
          Call.SetCounter "numa_id" numa_id, Call.numa_bind_node (-1), Call.cudaFree,
          Call.cudaFreeHost], ?_, ?_, ?_⟩
  · rw [trace_setupOk env s numa_id cuda_id hc hn hs]
    simp [setupCalls]
  · intro c hmem
    simp only [List.mem_append] at hmem
    rcases hmem with hmem | hmem
    · have := loopTrace_inLoop _ _ c hmem
      cases c <;> simp [Call.inLoop, Call.isHostAlloc, Call.isDeviceAlloc] at this ⊢
    · simp at hmem
      rcases hmem with h | h | h | h | h | h | h <;> subst h <;>
        simp [Call.isHostAlloc, Call.isDeviceAlloc]
  · intro hne
    cases hit : env.iters with
    | nil => exact absurd hit hne
    | cons it its =>
      unfold loopTrace
      split_ifs <;> simp [iterationCalls]

/-- C10 (amended) at work: NUMA node 1, GPU 0, size exponent 20, one iteration. -/
theorem C10_setup_order_witness :
    ∃ rest : List Call,
      (Comm_NUMAMemcpy_GPUToWC
        { has_cuda := true, has_numa := true, reset := 0, hostAlloc := 0,
          setDevice := 0, malloc := 0, memset := 0, iters := [⟨0, 0, 3⟩] }
        (State.fresh 20) 1 0).trace =
        [Call.numa_bind_node 1, Call.cuda_reset_device 0,
          Call.cudaHostAlloc (bytes_of_range 20), Call.cudaSetDevice 0,
          Call.cudaMalloc (bytes_of_range 20), Call.cudaMemset 0 (bytes_of_range 20),
          Call.cudaEventCreate Event.start, Call.cudaEventCreate Event.stop] ++ rest :=
  (C10_setup_order
    { has_cuda := true, has_numa := true, reset := 0, hostAlloc := 0,
      setDevice := 0, malloc := 0, memset := 0, iters := [⟨0, 0, 3⟩] }
    20 1 0 rfl rfl (by decide)).imp (fun _ h => h.1)

end CommScope
